import Mathlib

/-!
Shallow embedding of the Moodverter tray controller
(`src/src-tauri/src/lib.rs`).  The three host-dispatched callbacks
(`on_menu_event`, `on_tray_icon_event`, `on_window_event`) are modelled as
pure functions from the incoming event (plus the observable window state the
callback queries) to the list of commands the callback issues to the host, in
issue order.  Rust `f64` values are modelled exactly as `ℚ`; the Rust
`as i32` cast is the saturating truncation toward zero.
-/

namespace Moodverter

/-- Mouse buttons of a tray click (`tauri::tray::MouseButton`). -/
inductive MouseButton where
  | Left
  | Right
  | Middle
deriving DecidableEq

/-- Press phase of a tray click (`tauri::tray::MouseButtonState`). -/
inductive MouseButtonState where
  | Up
  | Down
deriving DecidableEq

/-- A screen position (`tauri::Position`): either physical pixels
(`PhysicalPosition<i32>`) or logical, DPI-scaled units
(`LogicalPosition<f64>`). -/
inductive Position where
  | Physical (x y : ℤ)
  | Logical (x y : ℚ)
deriving DecidableEq

/-- A screen size (`tauri::Size`): either physical pixels
(`PhysicalSize<u32>`) or logical units (`LogicalSize<f64>`). -/
inductive Size where
  | Physical (width height : ℕ)
  | Logical (width height : ℚ)
deriving DecidableEq

/-- The tray icon's bounding rectangle carried by a tray event. -/
structure Rect where
  position : Position
  size : Size
deriving DecidableEq

/-- Tray-icon events (`tauri::tray::TrayIconEvent`), with the fields the
handler consults. -/
inductive TrayIconEvent where
  | Click (button : MouseButton) (button_state : MouseButtonState) (rect : Rect)
  | DoubleClick (button : MouseButton) (rect : Rect)
  | Enter (rect : Rect)
  | Move (rect : Rect)
  | Leave (rect : Rect)
deriving DecidableEq

/-- Window events (`tauri::WindowEvent`), with the two variants the handler
matches on; `Other` stands for every remaining variant. -/
inductive WindowEvent where
  | Focused (focused : Bool)
  | CloseRequested
  | Other
deriving DecidableEq

/-- Commands the controller issues back to the host.  `setPosition` carries
the `tauri::Position` value handed to `window.set_position`; `preventClose`
is the `api.prevent_close()` call; `exit code` is `app.exit(code)`. -/
inductive Cmd where
  | hide
  | setPosition (p : Position)
  | showWindow
  | setFocus
  | preventClose
  | exit (code : ℤ)
deriving DecidableEq

/-- Lower bound of `i32`. -/
def i32Min : ℤ := -2147483648

/-- Upper bound of `i32`. -/
def i32Max : ℤ := 2147483647

/-- Truncation of a rational toward zero (the rounding a Rust float-to-int
cast performs on in-range values).  `Int.div` is T-division, so dividing the
numerator by the (positive) denominator truncates toward zero. -/
def truncQ (q : ℚ) : ℤ := Int.tdiv q.num (q.den : ℤ)

/-- Rust `expr as i32` on an `f64` value (modelled exactly on `ℚ`): truncate
toward zero, saturating at the `i32` bounds. -/
def f64AsI32 (q : ℚ) : ℤ := max i32Min (min i32Max (truncQ q))

/-- The `on_menu_event` closure: on id `"quit"` call `app.exit(0)`;
any other id does nothing. -/
def on_menu_event (event_id : String) : List Cmd :=
  if event_id = "quit" then [Cmd.exit 0] else []

/-- The `(tray_x, tray_y)` extraction from `rect.position`: raw numeric
fields of whichever variant arrived, `i32` coordinates cast to `f64`. -/
def trayPos (rect : Rect) : ℚ × ℚ :=
  match rect.position with
  | Position.Physical x y => ((x : ℚ), (y : ℚ))
  | Position.Logical x y => (x, y)

/-- The `tray_height` extraction from `rect.size`: the raw height field of
whichever variant arrived, `u32` cast to `f64`. -/
def trayHeight (rect : Rect) : ℚ :=
  match rect.size with
  | Size.Physical _ h => (h : ℚ)
  | Size.Logical _ h => h

/-- The fixed popover width constant (`let window_width: f64 = 400.0`). -/
def window_width : ℚ := 400

/-- The `on_tray_icon_event` closure.  `mainWindow` is the observable state
the handler queries: `none` models `app.get_webview_window("main")`
returning `None`; `some v` models a present window whose `is_visible()`
call returned `Ok b` (as `some b`) or `Err _` (as `none`). -/
def on_tray_icon_event (mainWindow : Option (Option Bool))
    (event : TrayIconEvent) : List Cmd :=
  match event with
  | TrayIconEvent.Click MouseButton.Left MouseButtonState.Up rect =>
    match mainWindow with
    | some is_visible =>
      if is_visible.getD false then
        [Cmd.hide]
      else
        let tray_x := (trayPos rect).1
        let tray_y := (trayPos rect).2
        let tray_height := trayHeight rect
        let x := tray_x - window_width / 2
        let y := tray_y + tray_height + 5
        [Cmd.setPosition (Position.Physical (f64AsI32 x) (f64AsI32 y)),
         Cmd.showWindow, Cmd.setFocus]
    | none => []
  | _ => []

/-- The `on_window_event` closure: hide on `Focused(false)`; hide and
prevent the default close on `CloseRequested`; ignore everything else. -/
def on_window_event (event : WindowEvent) : List Cmd :=
  match event with
  | WindowEvent.Focused false => [Cmd.hide]
  | WindowEvent.CloseRequested => [Cmd.hide, Cmd.preventClose]
  | _ => []

/-- Whether a tray event is a click with the left button in the release
phase — the only shape `on_tray_icon_event` acts on. -/
def isLeftUpClick : TrayIconEvent → Bool
  | TrayIconEvent.Click MouseButton.Left MouseButtonState.Up _ => true
  | _ => false

/-- When the truncated value already lies in the `i32` range, the saturating
cast is plain truncation toward zero. -/
theorem f64AsI32_of_range (q : ℚ) (h1 : i32Min ≤ truncQ q)
    (h2 : truncQ q ≤ i32Max) : f64AsI32 q = truncQ q := by
  unfold f64AsI32
  omega

/-- When the window is present and reported hidden (or the query failed),
a left-button release click takes the show path, with the coordinates the
source computes. -/
theorem on_tray_show_path (is_visible : Option Bool) (rect : Rect)
    (hvis : is_visible.getD false = false) :
    on_tray_icon_event (some is_visible)
      (TrayIconEvent.Click MouseButton.Left MouseButtonState.Up rect) =
    [Cmd.setPosition (Position.Physical
        (f64AsI32 ((trayPos rect).1 - window_width / 2))
        (f64AsI32 ((trayPos rect).2 + trayHeight rect + 5))),
     Cmd.showWindow, Cmd.setFocus] := by
  rcases is_visible with _ | b
  · rfl
  · cases b
    · rfl
    · exact absurd hvis (by decide)

/-- C1: for every tray rectangle, in whichever unit variant the click event
carries, when the window is hidden or the visibility query fails and a
left-button release tray click fires, the requested window position is
`(tray_x - 200, tray_y + tray_height + 5)`, each coordinate truncated to an
integer (stated for coordinates whose truncation is in `i32` range, where
the saturating cast is plain truncation). -/
theorem tray_click_hidden_requests_position (is_visible : Option Bool)
    (rect : Rect) (hvis : is_visible.getD false = false)
    (hx1 : i32Min ≤ truncQ ((trayPos rect).1 - 200))
    (hx2 : truncQ ((trayPos rect).1 - 200) ≤ i32Max)
    (hy1 : i32Min ≤ truncQ ((trayPos rect).2 + trayHeight rect + 5))
    (hy2 : truncQ ((trayPos rect).2 + trayHeight rect + 5) ≤ i32Max) :
    on_tray_icon_event (some is_visible)
      (TrayIconEvent.Click MouseButton.Left MouseButtonState.Up rect) =
    [Cmd.setPosition (Position.Physical (truncQ ((trayPos rect).1 - 200))
        (truncQ ((trayPos rect).2 + trayHeight rect + 5))),
     Cmd.showWindow, Cmd.setFocus] := by
  have hx : f64AsI32 ((trayPos rect).1 - window_width / 2)
      = truncQ ((trayPos rect).1 - 200) := by
    rw [show window_width / 2 = (200 : ℚ) by norm_num [window_width]]
    exact f64AsI32_of_range _ hx1 hx2
  have hy := f64AsI32_of_range _ hy1 hy2
  rw [on_tray_show_path is_visible rect hvis, hx, hy]

/-- Witness for C1: a physical rectangle at position `(100, 50)` with height
`20` yields the requested position `(-100, 75)`. -/
theorem tray_click_hidden_requests_position_witness :
    (some false : Option Bool).getD false = false ∧
    on_tray_icon_event (some (some false))
      (TrayIconEvent.Click MouseButton.Left MouseButtonState.Up
        ⟨Position.Physical 100 50, Size.Physical 20 20⟩) =
    [Cmd.setPosition (Position.Physical (-100) 75),
     Cmd.showWindow, Cmd.setFocus] := by
  refine ⟨rfl, ?_⟩
  rw [tray_click_hidden_requests_position (some false) _ rfl
    (by norm_num [trayPos, truncQ, i32Min])
    (by norm_num [trayPos, truncQ, i32Max])
    (by norm_num [trayPos, trayHeight, truncQ, i32Min])
    (by norm_num [trayPos, trayHeight, truncQ, i32Max])]
  norm_num [trayPos, trayHeight, truncQ]

/-- C2: a left-button release tray click with the window present and not
visible issues exactly the sequence set-position, show, set-focus, in that
order, and no hide. -/
theorem tray_click_not_visible_sequence (rect : Rect) :
    ∃ p : Position,
      on_tray_icon_event (some (some false))
        (TrayIconEvent.Click MouseButton.Left MouseButtonState.Up rect) =
      [Cmd.setPosition p, Cmd.showWindow, Cmd.setFocus] :=
  ⟨_, rfl⟩

/-- C3: a left-button release tray click with the window present and visible
issues exactly one hide command and nothing else. -/
theorem tray_click_visible_hides (rect : Rect) :
    on_tray_icon_event (some (some true))
      (TrayIconEvent.Click MouseButton.Left MouseButtonState.Up rect) =
    [Cmd.hide] := rfl

/-- C4: a `CloseRequested` window event issues exactly one hide command and
the prevent-close call, and never issues a process-exit command. -/
theorem close_requested_hides_prevents_close :
    on_window_event WindowEvent.CloseRequested =
      [Cmd.hide, Cmd.preventClose] ∧
    ∀ code : ℤ, Cmd.exit code ∉ on_window_event WindowEvent.CloseRequested := by
  refine ⟨rfl, ?_⟩
  intro code h
  simp [on_window_event] at h

/-- C5: a `Focused(false)` window event issues exactly one hide command,
unconditionally — the handler consults no visibility state at all. -/
theorem focused_false_hides :
    on_window_event (WindowEvent.Focused false) = [Cmd.hide] := rfl

/-- C6: a menu event with id `"quit"` issues exactly the exit-with-code-0
command; any other id issues no commands. -/
theorem menu_event_quit_exits_else_noop (event_id : String)
    (h : event_id ≠ "quit") :
    on_menu_event "quit" = [Cmd.exit 0] ∧ on_menu_event event_id = [] := by
  refine ⟨rfl, ?_⟩
  simp [on_menu_event, h]

/-- Witness for C6 at the non-quit id `"volume"`. -/
theorem menu_event_quit_exits_else_noop_witness :
    "volume" ≠ "quit" ∧
    (on_menu_event "quit" = [Cmd.exit 0] ∧ on_menu_event "volume" = []) :=
  ⟨by decide, menu_event_quit_exits_else_noop "volume" (by decide)⟩

/-- C7: when the visibility query fails (`is_visible()` returns `Err`), a
left-button release tray click takes the show path: set-position, show,
set-focus. -/
theorem tray_click_visibility_error_shows (rect : Rect) :
    ∃ p : Position,
      on_tray_icon_event (some none)
        (TrayIconEvent.Click MouseButton.Left MouseButtonState.Up rect) =
      [Cmd.setPosition p, Cmd.showWindow, Cmd.setFocus] :=
  ⟨_, rfl⟩

/-- C8: when no window named `"main"` exists, any tray event issues no
commands at all. -/
theorem tray_click_no_window_noop (event : TrayIconEvent) :
    on_tray_icon_event none event = [] := by
  cases event with
  | Click b s r => cases b <;> cases s <;> rfl
  | DoubleClick b r => rfl
  | Enter r => rfl
  | Move r => rfl
  | Leave r => rfl

/-- C9: any tray event that is not a left-button release click — other
buttons, the press phase, double clicks, hover enter/move/leave — issues no
commands, whatever the window state. -/
theorem tray_non_left_up_click_noop (mainWindow : Option (Option Bool))
    (event : TrayIconEvent) (h : isLeftUpClick event = false) :
    on_tray_icon_event mainWindow event = [] := by
  cases event with
  | Click b s r =>
    cases b with
    | Left =>
      cases s with
      | Up => simp [isLeftUpClick] at h
      | Down => rfl
    | Right => cases s <;> rfl
    | Middle => cases s <;> rfl
  | DoubleClick b r => rfl
  | Enter r => rfl
  | Move r => rfl
  | Leave r => rfl

/-- Witness for C9: a right-button release click with a visible window
issues nothing. -/
theorem tray_non_left_up_click_noop_witness :
    isLeftUpClick (TrayIconEvent.Click MouseButton.Right MouseButtonState.Up
      ⟨Position.Physical 0 0, Size.Physical 0 0⟩) = false ∧
    on_tray_icon_event (some (some true))
      (TrayIconEvent.Click MouseButton.Right MouseButtonState.Up
        ⟨Position.Physical 0 0, Size.Physical 0 0⟩) = [] :=
  ⟨rfl, tray_non_left_up_click_noop _ _ rfl⟩

/-- C10: on the show path the set-position command is always tagged as
physical pixels, for logical-unit rectangles too, and the coordinates are
the Rust `as i32` cast of the computed values: truncation toward zero
(`-100.5` becomes `-100`, not `-101`) saturated at the `i32` bounds. -/
theorem set_position_physical_truncating_saturating (rect : Rect) :
    on_tray_icon_event (some (some false))
      (TrayIconEvent.Click MouseButton.Left MouseButtonState.Up rect) =
    [Cmd.setPosition (Position.Physical
        (f64AsI32 ((trayPos rect).1 - window_width / 2))
        (f64AsI32 ((trayPos rect).2 + trayHeight rect + 5))),
     Cmd.showWindow, Cmd.setFocus] ∧
    f64AsI32 (-(201 / 2 : ℚ)) = -100 ∧
    f64AsI32 ((2 : ℚ) ^ 40) = i32Max ∧
    f64AsI32 (-((2 : ℚ) ^ 40)) = i32Min :=
  ⟨rfl,
   by
     have h : Int.tdiv 201 2 = 100 := by decide
     norm_num [f64AsI32, truncQ, i32Min, i32Max, h],
   by norm_num [f64AsI32, truncQ, i32Min, i32Max],
   by norm_num [f64AsI32, truncQ, i32Min, i32Max]⟩

end Moodverter
